import Mathlib

/-!
Shallow embedding of the authorization and abuse-control middleware of the
`supabase_server` repository (files `auth.py`, `app.py`, `config.py`).

Conventions of the embedding:

* Python wall-clock times (`time.time()`) are modelled as an `Int` parameter
  `now` threaded through each call; a single call that reads the clock twice
  in quick succession is modelled with one `now`.
* Python strings are Lean `String`s, except the hexadecimal fingerprint
  produced by `get_token_hash`, whose slicing is modelled at the
  character-list level (`List Char`).
* Module-level mutable maps (`token_blacklist`, `rate_limit_storage`,
  `cooldown_storage`, `login_attempts`) become explicit state values passed
  in and returned.
* A JWT credential string is modelled by the `Token` structure recording the
  observables the `jwt` library exposes: well-formedness, the declared header
  algorithm, the claims payload, and the key (if any) under which its HS256
  signature verifies.  The behaviour of `jwt.decode` / `jwt.get_unverified_header`
  as invoked by `verify_token` is modelled from the PyJWT library semantics
  for those exact options.
* Python exceptions become `Except` values; a `try ... except` block becomes a
  `match` on the `Except`.
-/

/-! ## SHA-256 (model of `hashlib.sha256(...).hexdigest()`, FIPS 180-4)

`get_token_hash` in `auth.py` uses `hashlib.sha256`; the library is embedded
as an executable SHA-256 over byte lists, with bytes and 32-bit words as
`Nat` reduced `% 2^32` where overflow matters. -/

/-- Rotate a 32-bit word (a `Nat` below `2^32`) right by `n` bits. -/
def rotr32 (n x : Nat) : Nat :=
  (x / 2 ^ n + x % 2 ^ n * 2 ^ (32 - n)) % 4294967296

/-- SHA-256 `Ch` function. -/
def sha256Ch (e f g : Nat) : Nat := (e &&& f) ^^^ ((4294967295 - e) &&& g)

/-- SHA-256 `Maj` function. -/
def sha256Maj (a b c : Nat) : Nat := (a &&& b) ^^^ (a &&& c) ^^^ (b &&& c)

/-- SHA-256 big sigma 0. -/
def bigSigma0 (x : Nat) : Nat := rotr32 2 x ^^^ rotr32 13 x ^^^ rotr32 22 x

/-- SHA-256 big sigma 1. -/
def bigSigma1 (x : Nat) : Nat := rotr32 6 x ^^^ rotr32 11 x ^^^ rotr32 25 x

/-- SHA-256 small sigma 0. -/
def smallSigma0 (x : Nat) : Nat := rotr32 7 x ^^^ rotr32 18 x ^^^ x / 8

/-- SHA-256 small sigma 1. -/
def smallSigma1 (x : Nat) : Nat := rotr32 17 x ^^^ rotr32 19 x ^^^ x / 1024

/-- The 64 SHA-256 round constants. -/
def K256 : List Nat :=
  [1116352408, 1899447441, 3049323471, 3921009573,
   961987163, 1508970993, 2453635748, 2870763221,
   3624381080, 310598401, 607225278, 1426881987,
   1925078388, 2162078206, 2614888103, 3248222580,
   3835390401, 4022224774, 264347078, 604807628,
   770255983, 1249150122, 1555081692, 1996064986,
   2554220882, 2821834349, 2952996808, 3210313671,
   3336571891, 3584528711, 113926993, 338241895,
   666307205, 773529912, 1294757372, 1396182291,
   1695183700, 1986661051, 2177026350, 2456956037,
   2730485921, 2820302411, 3259730800, 3345764771,
   3516065817, 3600352804, 4094571909, 275423344,
   430227734, 506948616, 659060556, 883997877,
   958139571, 1322822218, 1537002063, 1747873779,
   1955562222, 2024104815, 2227730452, 2361852424,
   2428436474, 2756734187, 3204031479, 3329325298]

/-- The SHA-256 initial hash value. -/
def H256 : List Nat :=
  [1779033703, 3144134277, 1013904242, 2773480762,
   1359893119, 2600822924, 528734635, 1541459225]

/-- Big-endian byte decomposition of `n` into `k` bytes. -/
def toBytesBE (k n : Nat) : List Nat :=
  (List.range k).map fun i => n / 2 ^ (8 * (k - 1 - i)) % 256

/-- SHA-256 padding: append `0x80`, zeros up to 56 mod 64, and the 64-bit
big-endian bit length. -/
def padMessage (msg : List Nat) : List Nat :=
  let L := msg.length
  let padLen := (119 - L % 64) % 64
  msg ++ [0x80] ++ List.replicate padLen 0 ++ toBytesBE 8 (L * 8)

/-- Parse a 64-byte block as 16 big-endian 32-bit words. -/
def bytesToWords (block : List Nat) : List Nat :=
  (List.range 16).map fun i =>
    block.getD (4 * i) 0 * 16777216 + block.getD (4 * i + 1) 0 * 65536 +
    block.getD (4 * i + 2) 0 * 256 + block.getD (4 * i + 3) 0

/-- One step of the message-schedule extension. -/
def scheduleStep (w : List Nat) : List Nat :=
  let n := w.length
  w ++ [(smallSigma1 (w.getD (n - 2) 0) + w.getD (n - 7) 0 +
         smallSigma0 (w.getD (n - 15) 0) + w.getD (n - 16) 0) % 4294967296]

/-- Extend the message schedule by `k` further words. -/
def buildW (w : List Nat) : Nat → List Nat
  | 0 => w
  | k + 1 => buildW (scheduleStep w) k

/-- One SHA-256 compression round on the 8-word working state. -/
def round8 (k wt : Nat) (st : List Nat) : List Nat :=
  let a := st.getD 0 0
  let b := st.getD 1 0
  let c := st.getD 2 0
  let d := st.getD 3 0
  let e := st.getD 4 0
  let f := st.getD 5 0
  let g := st.getD 6 0
  let hh := st.getD 7 0
  let t1 := (hh + bigSigma1 e + sha256Ch e f g + k + wt) % 4294967296
  let t2 := (bigSigma0 a + sha256Maj a b c) % 4294967296
  [(t1 + t2) % 4294967296, a, b, c, (d + t1) % 4294967296, e, f, g]

/-- Process one 64-byte block against the 8-word chaining value. -/
def processBlock (h : List Nat) (block : List Nat) : List Nat :=
  let w := buildW (bytesToWords block) 48
  let compressed := (List.range 64).foldl
    (fun st i => round8 (K256.getD i 0) (w.getD i 0) st) h
  (List.range 8).map fun i => (h.getD i 0 + compressed.getD i 0) % 4294967296

/-- SHA-256 digest of a byte list, as a list of 32 bytes. -/
def sha256 (msg : List Nat) : List Nat :=
  let padded := padMessage msg
  let blocks := (List.range (padded.length / 64)).map fun i =>
    (padded.drop (64 * i)).take 64
  ((blocks.foldl processBlock H256).map (toBytesBE 4)).flatten

/-- UTF-8 encoding of one Unicode code point (model of Python `str.encode`). -/
def utf8EncodeChar (n : Nat) : List Nat :=
  if n < 128 then [n]
  else if n < 2048 then [192 + n / 64, 128 + n % 64]
  else if n < 65536 then [224 + n / 4096, 128 + n / 64 % 64, 128 + n % 64]
  else [240 + n / 262144, 128 + n / 4096 % 64, 128 + n / 64 % 64, 128 + n % 64]

/-- UTF-8 bytes of a string (model of Python `token.encode()`). -/
def utf8Encode (s : String) : List Nat :=
  s.data.flatMap fun c => utf8EncodeChar c.toNat

/-- SHA-256 digest bytes of a string's UTF-8 encoding. -/
def sha256Bytes (s : String) : List Nat := sha256 (utf8Encode s)

/-- Lowercase hexadecimal digit for a value below 16. -/
def hexDigit (n : Nat) : Char :=
  if n < 10 then Char.ofNat (48 + n) else Char.ofNat (87 + n)

/-- Lowercase hex string (as characters) of a byte list: the model of
`hexdigest()`, two characters per byte. -/
def bytesToHexChars (bs : List Nat) : List Char :=
  bs.flatMap fun b => [hexDigit (b / 16), hexDigit (b % 16)]

/-! ## `auth.py` lines 32-48: token fingerprint and revocation registry -/

/-- `auth.py` lines 32-34: `hashlib.sha256(token.encode()).hexdigest()[:32]`.
Python string slicing is modelled as `List.take` on characters. -/
def get_token_hash (token : String) : List Char :=
  (bytesToHexChars (sha256Bytes token)).take 32

/-- `auth.py` lines 37-41: add the fingerprint to the blacklist set
(`set.add`, so inserting an existing element leaves the set unchanged). -/
def blacklist_token (bl : List (List Char)) (token : String) : List (List Char) :=
  let tokenHash := get_token_hash token
  if tokenHash ∈ bl then bl else tokenHash :: bl

/-- `auth.py` lines 44-48: membership of the fingerprint in the blacklist. -/
def is_token_blacklisted (bl : List (List Char)) (token : String) : Bool :=
  decide (get_token_hash token ∈ bl)

/-! ## Token and JWT-library model -/

/-- The claims payload of a JWT credential, with the claims `verify_token`
reads: `iss`, `sub`, `exp`, `iat`, `email`.  Absent claims are `none`. -/
structure Payload where
  iss : Option String
  sub : Option String
  exp : Option Int
  iat : Option Int
  email : Option String
deriving DecidableEq

/-- Model of a credential string: `raw` is the underlying Python string (used
for fingerprinting), and the remaining fields are the observables the `jwt`
library exposes for it: whether it parses as a JWT at all, the declared
header algorithm, the claims payload, and the HS256 key (if any) under which
its signature verifies. -/
structure Token where
  raw : String
  wellFormed : Bool
  alg : String
  payload : Payload
  signedWith : Option String
deriving DecidableEq

/-- Errors of the `jwt` library relevant to `verify_token`.  Inside
`verify_token` every one of them is caught (lines 78-83 and 127-132 of
`auth.py`) and turned into a `None` result. -/
inductive JwtDecodeError
  | decodeError
  | invalidAlgorithm
  | invalidSignature
  | missingRequiredClaim
  | immatureSignature
  | expiredSignature
deriving DecidableEq

/-- A Python exception that is not a `jwt` error and reaches the blanket
`except Exception` handler of `verify_token` (line 133 of `auth.py`). -/
inductive PyFault
  | attributeError
  | typeError
deriving DecidableEq

/-- Model of `jwt.decode(token, key, algorithms=["HS256"], options={
verify_signature, verify_exp, verify_iat: True, require: [exp, sub, iss]})`
(auth.py lines 67-77), from the PyJWT semantics for those options with zero
leeway: malformed input fails, only HS256 is accepted, the signature must
verify under `key`, the claims `exp`, `sub`, `iss` must be present, a future
`iat` fails, and `exp ≤ now` fails. -/
def jwtDecodeStrict (tok : Token) (key : String) (now : Int) :
    Except JwtDecodeError Payload :=
  if tok.wellFormed = false then .error .decodeError
  else if tok.alg ≠ "HS256" then .error .invalidAlgorithm
  else if tok.signedWith ≠ some key then .error .invalidSignature
  else if tok.payload.exp.isNone ∨ tok.payload.sub.isNone ∨ tok.payload.iss.isNone then
    .error .missingRequiredClaim
  else if (match tok.payload.iat with
           | some i => decide (now < i)
           | none => false) then .error .immatureSignature
  else if (match tok.payload.exp with
           | some e => decide (e ≤ now)
           | none => true) then .error .expiredSignature
  else .ok tok.payload

/-- Model of `jwt.get_unverified_header(token)` (auth.py line 91): the
declared algorithm of a well-formed token, an error otherwise. -/
def getUnverifiedHeader (tok : Token) : Except JwtDecodeError String :=
  if tok.wellFormed then .ok tok.alg else .error .decodeError

/-- Model of `jwt.decode(token, options={"verify_signature": False})`
(auth.py lines 101-104): per PyJWT, disabling signature verification also
disables all claim validation, so a well-formed token yields its payload
unconditionally. -/
def jwtDecodeUnverified (tok : Token) : Except JwtDecodeError Payload :=
  if tok.wellFormed then .ok tok.payload else .error .decodeError

/-- ASCII model of Python `str.lower()` as applied to algorithm names at
auth.py line 92. -/
def asciiLower (s : String) : String :=
  ⟨s.data.map fun c =>
    if 65 ≤ c.toNat ∧ c.toNat ≤ 90 then Char.ofNat (c.toNat + 32) else c⟩

/-- Python substring membership `needle in hay` on character lists. -/
def containsSub (needle : List Char) : List Char → Bool
  | [] => needle.isEmpty
  | c :: t => needle.isPrefixOf (c :: t) || containsSub needle t

/-- Python `expected in issuer` on strings. -/
def strContainsSub (needle hay : String) : Bool :=
  containsSub needle.data hay.data

/-! ## `auth.py` lines 51-135: `verify_token` -/

/-- `auth.py` lines 106-125, the claim checks shared by both verification
paths: issuer non-empty and containing `Config.SUPABASE_URL` (a missing
`SUPABASE_URL` makes `expected_issuer not in issuer` raise `TypeError`),
`exp` (default `0`) not strictly below `now`, and a non-blank `sub`.
`.ok none` models a handled `return None`; `.error f` models an exception
escaping to the blanket handler. -/
def claimsTail (supabaseUrl : Option String) (payload : Payload) (now : Int) :
    Except PyFault (Option Payload) :=
  let issuer := payload.iss.getD ""
  if issuer = "" then .ok none
  else
    match supabaseUrl with
    | none => .error .typeError
    | some expected =>
      if strContainsSub expected issuer = false then .ok none
      else
        let exp := payload.exp.getD 0
        if exp < now then .ok none
        else if payload.sub.getD "" = "" then .ok none
        else .ok (some payload)

/-- The body of `verify_token` (auth.py lines 55-125), inside the `try`:
blacklist check first, then the fetch of `Config.SUPABASE_JWT_SECRET` (whose
outcome is the parameter `secretFetch`), then either signature-verifying
decode (secret configured) or the header screen plus unverified decode
(secret absent), then the shared claim checks.  `.ok none` is a handled
`return None` (including every caught `jwt` error); `.error f` is a fault
that the blanket `except Exception` will catch. -/
def verifyTokenBody (secretFetch : Except PyFault (Option String))
    (supabaseUrl : Option String) (bl : List (List Char)) (tok : Token)
    (now : Int) : Except PyFault (Option Payload) :=
  if is_token_blacklisted bl tok.raw then .ok none
  else
    match secretFetch with
    | .error f => .error f
    | .ok jwtSecret =>
      match jwtSecret with
      | some key =>
        match jwtDecodeStrict tok key now with
        | .error _ => .ok none
        | .ok payload => claimsTail supabaseUrl payload now
      | none =>
        match getUnverifiedHeader tok with
        | .error _ => .ok none
        | .ok alg =>
          if asciiLower alg = "none" then .ok none
          else if alg ∉ ["HS256", "RS256", "ES256"] then .ok none
          else
            match jwtDecodeUnverified tok with
            | .error _ => .ok none
            | .ok payload => claimsTail supabaseUrl payload now

/-- `verify_token` with its `try ... except` wrapper (auth.py lines 51-135):
every fault from the body collapses to `None`. -/
def verify_token_total (secretFetch : Except PyFault (Option String))
    (supabaseUrl : Option String) (bl : List (List Char)) (tok : Token)
    (now : Int) : Option Payload :=
  match verifyTokenBody secretFetch supabaseUrl bl tok now with
  | .error _ => none
  | .ok r => r

/-- `verify_token` in the configuration the claims quantify over: the
configured shared secret is `some key` or `none` (auth.py line 64 branches
on it). -/
def verifyTokenGiven (jwtSecret : Option String) (supabaseUrl : Option String)
    (bl : List (List Char)) (tok : Token) (now : Int) : Option Payload :=
  verify_token_total (.ok jwtSecret) supabaseUrl bl tok now

/-- `config.py` lines 11-24 define the class attributes `SUPABASE_URL`,
`SUPABASE_SECRET_KEY`, `SECRET_KEY`, `DEBUG`, `CAST_COOLDOWN_SECONDS` and
`MAX_REQUESTS_PER_MINUTE` — and no `SUPABASE_JWT_SECRET`.  The attribute
access `Config.SUPABASE_JWT_SECRET` at auth.py line 62 therefore raises
`AttributeError`. -/
def configGetJwtSecret : Except PyFault (Option String) := .error .attributeError

/-- `verify_token` as deployed: the composition of auth.py line 62 with the
actual `config.py` class attributes. -/
def verify_token (supabaseUrl : Option String) (bl : List (List Char))
    (tok : Token) (now : Int) : Option Payload :=
  verify_token_total configGetJwtSecret supabaseUrl bl tok now

/-! ## Per-key map helpers (model of `defaultdict(list)` / `dict` access) -/

/-- Read a key of `defaultdict(list)`: missing keys read as `[]`. -/
def getList (m : List (String × List Int)) (k : String) : List Int :=
  (m.lookup k).getD []

/-- Write a key of a string-keyed map. -/
def setList (m : List (String × List Int)) (k : String) (v : List Int) :
    List (String × List Int) :=
  (k, v) :: m.filter fun p => decide (p.1 ≠ k)

/-- Write a key of `cooldown_storage`. -/
def setStamp (m : List (String × Int)) (k : String) (v : Int) :
    List (String × Int) :=
  (k, v) :: m.filter fun p => decide (p.1 ≠ k)

/-! ## `auth.py` lines 171-200: login attempt guard -/

/-- `LOGIN_MAX_ATTEMPTS` (auth.py line 28). -/
def LOGIN_MAX_ATTEMPTS : Nat := 5

/-- `LOGIN_LOCKOUT_SECONDS` (auth.py line 29). -/
def LOGIN_LOCKOUT_SECONDS : Int := 300

/-- `auth.py` lines 171-188: prune a key's failed-attempt timestamps to the
lockout window, then report whether the key is locked out (with the
remaining wait) and write back the pruned list. -/
def check_login_attempts (atts : List (String × List Int)) (k : String)
    (now : Int) : (Bool × Int) × List (String × List Int) :=
  let pruned := (getList atts k).filter fun t => decide (now - t < LOGIN_LOCKOUT_SECONDS)
  let atts' := setList atts k pruned
  if pruned.length ≥ LOGIN_MAX_ATTEMPTS then
    let oldest := pruned.foldr min now
    ((false, LOGIN_LOCKOUT_SECONDS - (now - oldest)), atts')
  else ((true, 0), atts')

/-- `auth.py` lines 191-194: append the current time to a key's
failed-attempt list. -/
def record_login_attempt (atts : List (String × List Int)) (k : String)
    (now : Int) : List (String × List Int) :=
  setList atts k (getList atts k ++ [now])

/-- `auth.py` lines 197-200: reset a key's failed-attempt list. -/
def clear_login_attempts (atts : List (String × List Int)) (k : String) :
    List (String × List Int) :=
  setList atts k []

/-! ## `auth.py` lines 235-266: request rate limiter -/

/-- The per-identity core of the `rate_limit` decorator (auth.py lines
244-261): prune the stored timestamps with `now - req_time < window_seconds`,
deny when the pruned count has reached `max_requests`, otherwise append
`now`.  Returns the decision and the written-back timestamp list. -/
def rate_limit_call (maxRequests windowSeconds : Nat) (storage : List Int)
    (now : Int) : Bool × List Int :=
  let pruned := storage.filter fun t => decide (now - t < (windowSeconds : Int))
  if pruned.length ≥ maxRequests then (false, pruned)
  else (true, pruned ++ [now])

/-- Python falsiness of an optional string, as used on `user_id` at auth.py
lines 240-241 and 296-297 (`getattr(request, 'user_id', None)`) and on the
`email`/`password` body fields at app.py line 129: falsy when absent or
empty. -/
def pyFalsy (uid : Option String) : Bool :=
  match uid with
  | none => true
  | some s => decide (s = "")

/-- The full `rate_limit` decorator (auth.py lines 235-266) around an
abstract wrapped operation: result status (`401`, `429`, or the wrapped
operation's `200`), the resulting storage, and whether the wrapped operation
ran. -/
def rate_limit_decorated (maxRequests windowSeconds : Nat) (uid : Option String)
    (storage : List (String × List Int)) (now : Int) :
    Nat × List (String × List Int) × Bool :=
  if pyFalsy uid then (401, storage, false)
  else
    let u := uid.getD ""
    match rate_limit_call maxRequests windowSeconds (getList storage u) now with
    | (false, pruned) => (429, setList storage u pruned, false)
    | (true, appended) => (200, setList storage u appended, true)

/-! ## `auth.py` lines 269-322: action cooldown guard -/

/-- `auth.py` lines 269-282 for one identity: given the identity's stored
stamp (`none` when absent), report whether the action may start and the
remaining wait.  The lock makes this one atomic step. -/
def check_cooldown (stamp : Option Int) (cooldownSeconds now : Int) : Bool × Int :=
  match stamp with
  | some lastCast =>
    let timeElapsed := now - lastCast
    if timeElapsed < cooldownSeconds then (false, cooldownSeconds - timeElapsed)
    else (true, 0)
  | none => (true, 0)

/-- `auth.py` lines 285-288 for one identity: overwrite the stamp with `now`.
A second atomic step, under a separate lock acquisition. -/
def set_cooldown (now : Int) : Option Int := some now

/-- The full `cooldown_required` decorator (auth.py lines 291-322) around an
abstract wrapped operation, run without interleaving: status, resulting
stamps, and whether the wrapped operation ran. -/
def cooldown_decorated (cooldownSeconds : Int) (uid : Option String)
    (stamps : List (String × Int)) (now : Int) :
    Nat × List (String × Int) × Bool :=
  if pyFalsy uid then (401, stamps, false)
  else
    let u := uid.getD ""
    match check_cooldown (stamps.lookup u) cooldownSeconds now with
    | (false, _) => (429, stamps, false)
    | (true, _) => (200, setStamp stamps u now, true)

/-! ## Interleaving model of two concurrent `cooldown_required` calls

`cooldown_required` runs `check_cooldown` and `set_cooldown` under two
separate acquisitions of `_cooldown_lock`, so each is one atomic step but
the pair is not.  Two request threads for the same identity are modelled with
a phase each; the shared cell is that identity's stamp. -/

/-- Phase of one request thread inside `cooldown_required`'s wrapper. -/
inductive ThreadPhase
  | ready
  | checked (allowed : Bool)
  | finished (allowed : Bool)
deriving DecidableEq

/-- Shared stamp plus the two thread phases. -/
structure RaceState where
  stamp : Option Int
  t1 : ThreadPhase
  t2 : ThreadPhase
deriving DecidableEq

/-- One atomic step of either thread, with both calls at time `now` and
cooldown `cd`: a `check_cooldown` (one lock acquisition), then — only on an
allowed check — a `set_cooldown` (a second lock acquisition) before the
guarded action, or a denied return. -/
inductive RaceStep (cd now : Int) : RaceState → RaceState → Prop
  | check1 (s : Option Int) (p : ThreadPhase) :
      RaceStep cd now ⟨s, .ready, p⟩ ⟨s, .checked (check_cooldown s cd now).1, p⟩
  | check2 (s : Option Int) (p : ThreadPhase) :
      RaceStep cd now ⟨s, p, .ready⟩ ⟨s, p, .checked (check_cooldown s cd now).1⟩
  | set1 (s : Option Int) (p : ThreadPhase) :
      RaceStep cd now ⟨s, .checked true, p⟩ ⟨set_cooldown now, .finished true, p⟩
  | set2 (s : Option Int) (p : ThreadPhase) :
      RaceStep cd now ⟨s, p, .checked true⟩ ⟨set_cooldown now, p, .finished true⟩
  | deny1 (s : Option Int) (p : ThreadPhase) :
      RaceStep cd now ⟨s, .checked false, p⟩ ⟨s, .finished false, p⟩
  | deny2 (s : Option Int) (p : ThreadPhase) :
      RaceStep cd now ⟨s, p, .checked false⟩ ⟨s, p, .finished false⟩

/-! ## `app.py` lines 121-155: the login endpoint -/

/-- Outcome of `supabase.auth.sign_in_with_password` (an external call):
a session, a response without a session, or a raised exception. -/
inductive SignInOutcome
  | session
  | noSession
  | exception
deriving DecidableEq

/-- The request body fields `login` reads; `none` models an absent field. -/
structure LoginRequest where
  email : Option String
  password : Option String
deriving DecidableEq

/-- `app.py` lines 121-155: the `login` route.  It validates the body, calls
the credential exchange, and maps the outcome to a status code.  It is not
wrapped in `login_rate_limit` and contains no call to
`record_login_attempt` or `clear_login_attempts`, so the attempt state is
returned unchanged on every path. -/
def login (atts : List (String × List Int)) (req : LoginRequest)
    (outcome : SignInOutcome) : Nat × List (String × List Int) :=
  if pyFalsy req.email || pyFalsy req.password then (400, atts)
  else
    match outcome with
    | .session => (200, atts)
    | .noSession => (401, atts)
    | .exception => (400, atts)

/-! ## Module state and its operations (for revocation permanence) -/

/-- The four module-level mutable stores of `auth.py` (lines 20-27). -/
structure AuthState where
  blacklist : List (List Char)
  loginAttempts : List (String × List Int)
  rateStorage : List (String × List Int)
  cooldowns : List (String × Int)
deriving DecidableEq

/-- Every state-mutating operation `auth.py` exposes on the module stores. -/
inductive AuthOp
  | blacklistTok (token : String)
  | recordLoginAttempt (k : String) (now : Int)
  | clearLoginAttempts (k : String)
  | checkLoginAttempts (k : String) (now : Int)
  | rateLimit (uid : Option String) (maxRequests windowSeconds : Nat) (now : Int)
  | cooldown (uid : Option String) (cooldownSeconds now : Int)

/-- Effect of one operation on the module state. -/
def applyOp (s : AuthState) : AuthOp → AuthState
  | .blacklistTok token => { s with blacklist := blacklist_token s.blacklist token }
  | .recordLoginAttempt k now =>
      { s with loginAttempts := record_login_attempt s.loginAttempts k now }
  | .clearLoginAttempts k =>
      { s with loginAttempts := clear_login_attempts s.loginAttempts k }
  | .checkLoginAttempts k now =>
      { s with loginAttempts := (check_login_attempts s.loginAttempts k now).2 }
  | .rateLimit uid m w now =>
      { s with rateStorage := (rate_limit_decorated m w uid s.rateStorage now).2.1 }
  | .cooldown uid cd now =>
      { s with cooldowns := (cooldown_decorated cd uid s.cooldowns now).2.1 }

/-- Apply a sequence of operations in order. -/
def applyOps (s : AuthState) (ops : List AuthOp) : AuthState :=
  ops.foldl applyOp s

/-! ## Claim-side description for the rate limiter (refinement comparison)

The claim states the prune interval as the closed `[now - windowSeconds, now]`;
this definition follows the claim's words, to be compared with
`rate_limit_call`, which is translated from the source. -/

/-- Modelled from the claim's words: prune to the closed interval
`[now - windowSeconds, now]`, then the same admission rule. -/
def rateLimitClaimClosed (maxRequests windowSeconds : Nat) (storage : List Int)
    (now : Int) : Bool × List Int :=
  let pruned := storage.filter fun t =>
    decide (now - (windowSeconds : Int) ≤ t ∧ t ≤ now)
  if pruned.length ≥ maxRequests then (false, pruned)
  else (true, pruned ++ [now])

/-! ## Theorems -/

/-- A lowercased algorithm name equal to the string of the always-rejected
algorithm cannot be the allow-listed one. -/
theorem asciiLower_ne_HS256 (a : String) (h : asciiLower a = "none") :
    a ≠ "HS256" := by
  intro hh
  subst hh
  revert h
  decide

/-- C1: for a credential that is well-formed, unrevoked, HS256-signed under
the configured shared secret, unexpired, with a matching issuer and a
non-blank subject, the deployed `verify_token` still returns no identity:
`config.py` defines no `SUPABASE_JWT_SECRET` attribute, so line 62 of
`auth.py` raises `AttributeError` and the blanket handler returns `None` —
although the same verification body, given that configured secret, accepts
the credential and returns exactly its verified claims. -/
theorem c1_valid_token_rejected_by_deployed_config :
    verify_token (some "https://proj.supabase.co") []
      ⟨"rawG", true, "HS256",
       ⟨some "https://proj.supabase.co/auth/v1", some "user-1", some 1000,
        some 0, some "u@example.com"⟩, some "s3cret"⟩ 500 = none
    ∧ verifyTokenGiven (some "s3cret") (some "https://proj.supabase.co") []
      ⟨"rawG", true, "HS256",
       ⟨some "https://proj.supabase.co/auth/v1", some "user-1", some 1000,
        some 0, some "u@example.com"⟩, some "s3cret"⟩ 500 =
      some ⟨some "https://proj.supabase.co/auth/v1", some "user-1", some 1000,
        some 0, some "u@example.com"⟩ := by
  constructor
  · rfl
  · decide

/-- C2: the cooldown guard's check and stamp-set are two separate critical
sections, so two requests for the same identity can interleave
check-check-set-set: from an empty stamp, with `cooldownSeconds = 2` and both
calls at `now = 0`, the state where both threads finished Allowed is
reachable — while a caller whose check runs after the other's stamp-set is
denied with 2 seconds remaining, confirming that only the interleaving makes
both succeed. -/
theorem c2_cooldown_race_both_allowed :
    Relation.ReflTransGen (RaceStep 2 0)
      ⟨none, .ready, .ready⟩ ⟨some 0, .finished true, .finished true⟩
    ∧ check_cooldown (some 0) 2 0 = (false, 2) := by
  constructor
  · have h1 : RaceStep 2 0 ⟨none, .ready, .ready⟩ ⟨none, .checked true, .ready⟩ :=
      RaceStep.check1 none .ready
    have h2 : RaceStep 2 0 ⟨none, .checked true, .ready⟩
        ⟨none, .checked true, .checked true⟩ :=
      RaceStep.check2 none (.checked true)
    have h3 : RaceStep 2 0 ⟨none, .checked true, .checked true⟩
        ⟨some 0, .finished true, .checked true⟩ :=
      RaceStep.set1 none (.checked true)
    have h4 : RaceStep 2 0 ⟨some 0, .finished true, .checked true⟩
        ⟨some 0, .finished true, .finished true⟩ :=
      RaceStep.set2 (some 0) (.finished true)
    exact .head h1 (.head h2 (.head h3 (.single h4)))
  · decide

/-- C3: the login route never invokes the login attempt guard: on every
request body and every credential-exchange outcome it returns the attempt
state unchanged — whereas an actual `record_login_attempt` call visibly
appends the failure and `clear_login_attempts` visibly resets it. -/
theorem c3_login_never_touches_attempt_guard :
    (∀ (atts : List (String × List Int)) (req : LoginRequest)
      (outcome : SignInOutcome), (login atts req outcome).2 = atts)
    ∧ login [] ⟨some "a@b.c", some "pw"⟩ .noSession = (401, [])
    ∧ record_login_attempt [] "email:a@b.c" 5 = [("email:a@b.c", [5])]
    ∧ clear_login_attempts [("email:a@b.c", [5])] "email:a@b.c" =
        [("email:a@b.c", [])] := by
  refine ⟨?_, by decide, by decide, by decide⟩
  intro atts req outcome
  unfold login
  split
  · rfl
  · cases outcome <;> rfl

/-- C10: a request reaching the rate-limit guard or the cooldown guard with
no `user_id` attached is answered 401, the guard state is unchanged, and the
wrapped operation does not run. -/
theorem c10_guards_unauthorized_without_identity :
    ∀ (m w : Nat) (storage : List (String × List Int)) (now cd : Int)
      (stamps : List (String × Int)),
      rate_limit_decorated m w none storage now = (401, storage, false)
      ∧ cooldown_decorated cd none stamps now = (401, stamps, false) := by
  intro m w storage now cd stamps
  exact ⟨rfl, rfl⟩

/-- C4 counterexample: the claim's closed prune interval
`[now - windowSeconds, now]` disagrees with the code at the window boundary:
with one stored timestamp at `0`, `maxRequests = 1`, `windowSeconds = 60`
and a call at `now = 60`, the code prunes the entry (its filter keeps only
`now - t < windowSeconds`) and allows the call, while the claim's
description retains the entry and predicts Denied. -/
theorem c4_prune_boundary_counterexample :
    rate_limit_call 1 60 [0] 60 = (true, [60])
    ∧ rateLimitClaimClosed 1 60 [0] 60 = (false, [0]) := by
  decide

/-- C4 amended: on timestamps no later than `now`, each rate-limiter call
prunes the identity's stored timestamps to those within the half-open window
`(now - windowSeconds, now]`, appends `now` and returns Allowed when the
pruned count is below `maxRequests`, and otherwise returns Denied leaving
only the pruned list; the claim's concrete scenario (`maxRequests = 3`,
`windowSeconds = 60`: Allowed at `t = 0, 1, 2`, Denied at `t = 3`, Allowed
at `t = 61`) holds. -/
theorem c4_rate_limit_amended :
    (∀ (m w : Nat) (storage : List Int) (now : Int), (∀ t ∈ storage, t ≤ now) →
      rate_limit_call m w storage now =
        (let pruned := storage.filter fun t =>
          decide (now - (w : Int) < t ∧ t ≤ now)
         if pruned.length ≥ m then (false, pruned) else (true, pruned ++ [now])))
    ∧ rate_limit_call 3 60 [] 0 = (true, [0])
    ∧ rate_limit_call 3 60 [0] 1 = (true, [0, 1])
    ∧ rate_limit_call 3 60 [0, 1] 2 = (true, [0, 1, 2])
    ∧ rate_limit_call 3 60 [0, 1, 2] 3 = (false, [0, 1, 2])
    ∧ rate_limit_call 3 60 [0, 1, 2] 61 = (true, [2, 61]) := by
  refine ⟨?_, by decide, by decide, by decide, by decide, by decide⟩
  intro m w storage now h
  have hf : (storage.filter fun t => decide (now - t < (w : Int))) =
      storage.filter fun t => decide (now - (w : Int) < t ∧ t ≤ now) := by
    refine List.filter_congr ?_
    intro x hx
    have hx' := h x hx
    simp only [decide_eq_decide]
    omega
  simp only [rate_limit_call, hf]

/-- C4 witness: the amended characterization applied at `maxRequests = 1`,
`windowSeconds = 60`, one stored timestamp `0`, `now = 30`: the window still
contains the entry, so the call is Denied with only the pruned list kept. -/
theorem c4_rate_limit_amended_witness :
    (∀ t ∈ ([0] : List Int), t ≤ 30)
    ∧ rate_limit_call 1 60 [0] 30 = (false, [0]) := by
  refine ⟨by decide, ?_⟩
  have h := c4_rate_limit_amended.1 1 60 [0] 30 (by decide)
  rw [h]
  decide

/-- C5 counterexample: without a configured shared secret, a well-formed
credential declaring algorithm `RS256` — outside the claim's allow-list
`{HS256}` — with valid claims is accepted by `verify_token`'s fallback path
(its header screen accepts `HS256`, `RS256` and `ES256`), refuting the claim
that every declared algorithm outside `{HMAC-SHA256}` is rejected. -/
theorem c5_rs256_accepted_without_secret :
    "RS256" ≠ "HS256"
    ∧ verifyTokenGiven none (some "https://proj.supabase.co") []
        ⟨"rawRS", true, "RS256",
         ⟨some "https://proj.supabase.co/auth/v1", some "user-1", some 1000,
          none, none⟩, none⟩ 500 =
        some ⟨some "https://proj.supabase.co/auth/v1", some "user-1",
          some 1000, none, none⟩ := by
  constructor
  · decide
  · decide

/-- A credential declaring any algorithm other than `HS256` never passes the
signature-verifying decode (auth.py line 70 passes `algorithms=["HS256"]`). -/
theorem jwtDecodeStrict_ne_ok_of_alg (tok : Token) (key : String) (now : Int)
    (h : tok.alg ≠ "HS256") : ∀ p, jwtDecodeStrict tok key now ≠ .ok p := by
  intro p hp
  unfold jwtDecodeStrict at hp
  repeat' split at hp
  all_goals simp_all

/-- C5 amended: the algorithm screen depends on the configuration: with a
configured shared secret every declared algorithm other than `HS256` is
rejected; without one, the fallback screen rejects algorithms outside
`{HS256, RS256, ES256}` (so `RS256`/`ES256` pass on to claims-only
verification); a declared algorithm lowercasing to `"none"` is rejected in
both configurations. -/
theorem c5_algorithm_screening_amended :
    ∀ (jwtSecret url : Option String) (bl : List (List Char)) (tok : Token)
      (now : Int),
      (asciiLower tok.alg = "none" →
        verifyTokenGiven jwtSecret url bl tok now = none)
      ∧ (∀ key, jwtSecret = some key → tok.alg ≠ "HS256" →
          verifyTokenGiven jwtSecret url bl tok now = none)
      ∧ (jwtSecret = none → tok.alg ∉ ["HS256", "RS256", "ES256"] →
          verifyTokenGiven jwtSecret url bl tok now = none) := by
  intro jwtSecret url bl tok now
  by_cases hbl : is_token_blacklisted bl tok.raw = true
  · refine ⟨?_, ?_, ?_⟩ <;> intros <;>
      simp [verifyTokenGiven, verify_token_total, verifyTokenBody, hbl]
  · have hbl' : is_token_blacklisted bl tok.raw = false := by
      revert hbl
      cases is_token_blacklisted bl tok.raw <;> simp
    refine ⟨?_, ?_, ?_⟩
    · intro halg
      have hne := asciiLower_ne_HS256 _ halg
      cases jwtSecret with
      | some key =>
        cases hdec : jwtDecodeStrict tok key now with
        | error e =>
          simp [verifyTokenGiven, verify_token_total, verifyTokenBody, hbl', hdec]
        | ok p => exact absurd hdec (jwtDecodeStrict_ne_ok_of_alg tok key now hne p)
      | none =>
        cases hwf : tok.wellFormed with
        | false =>
          simp [verifyTokenGiven, verify_token_total, verifyTokenBody, hbl',
            getUnverifiedHeader, hwf]
        | true =>
          simp [verifyTokenGiven, verify_token_total, verifyTokenBody, hbl',
            getUnverifiedHeader, hwf, halg]
    · intro key hk hne
      subst hk
      cases hdec : jwtDecodeStrict tok key now with
      | error e =>
        simp [verifyTokenGiven, verify_token_total, verifyTokenBody, hbl', hdec]
      | ok p => exact absurd hdec (jwtDecodeStrict_ne_ok_of_alg tok key now hne p)
    · intro hk hnotin
      subst hk
      cases hwf : tok.wellFormed with
      | false =>
        simp [verifyTokenGiven, verify_token_total, verifyTokenBody, hbl',
          getUnverifiedHeader, hwf]
      | true =>
        by_cases hlow : asciiLower tok.alg = "none"
        · simp [verifyTokenGiven, verify_token_total, verifyTokenBody, hbl',
            getUnverifiedHeader, hwf, hlow]
        · simp [verifyTokenGiven, verify_token_total, verifyTokenBody, hbl',
            getUnverifiedHeader, hwf, hlow, hnotin]

/-- C5 witness: a credential declaring algorithm `NoNe` (lowercasing to
`none`) is rejected even without a configured secret and with otherwise
valid, unexpired claims. -/
theorem c5_algorithm_screening_amended_witness :
    asciiLower "NoNe" = "none"
    ∧ verifyTokenGiven none (some "x") []
        ⟨"r", true, "NoNe", ⟨some "x", some "u", some 10, none, none⟩, none⟩ 5 =
        none := by
  refine ⟨by decide, ?_⟩
  exact (c5_algorithm_screening_amended none (some "x") []
    ⟨"r", true, "NoNe", ⟨some "x", some "u", some 10, none, none⟩, none⟩ 5).1
    (by decide)

/-- Recording a credential puts its fingerprint in the blacklist. -/
theorem mem_blacklist_token_self (bl : List (List Char)) (token : String) :
    get_token_hash token ∈ blacklist_token bl token := by
  by_cases hmem : get_token_hash token ∈ bl
  · simp [blacklist_token, hmem]
  · simp [blacklist_token, hmem]

/-- No module operation removes a blacklist entry. -/
theorem blacklist_mem_applyOp (s : AuthState) (op : AuthOp) (h : List Char)
    (hm : h ∈ s.blacklist) : h ∈ (applyOp s op).blacklist := by
  cases op with
  | blacklistTok token =>
    show h ∈ blacklist_token s.blacklist token
    by_cases hmem : get_token_hash token ∈ s.blacklist
    · simpa [blacklist_token, hmem] using hm
    · simp [blacklist_token, hmem]
      exact Or.inr hm
  | recordLoginAttempt k now => exact hm
  | clearLoginAttempts k => exact hm
  | checkLoginAttempts k now => exact hm
  | rateLimit uid m w now => exact hm
  | cooldown uid cd now => exact hm

/-- Blacklist membership survives any sequence of module operations. -/
theorem blacklist_mem_applyOps (ops : List AuthOp) (s : AuthState)
    (h : List Char) (hm : h ∈ s.blacklist) : h ∈ (applyOps s ops).blacklist := by
  induction ops generalizing s with
  | nil => exact hm
  | cons op rest ih => exact ih (applyOp s op) (blacklist_mem_applyOp s op h hm)

/-- A credential whose fingerprint is blacklisted is rejected before any
other verification step, whatever the configuration. -/
theorem verify_none_of_blacklisted (sf : Except PyFault (Option String))
    (url : Option String) (bl : List (List Char)) (tok : Token) (now : Int)
    (h : get_token_hash tok.raw ∈ bl) :
    verify_token_total sf url bl tok now = none := by
  have hb : is_token_blacklisted bl tok.raw = true := decide_eq_true h
  simp [verify_token_total, verifyTokenBody, hb]

/-- C6: once a credential is recorded in the revocation registry, every
subsequent verification of that credential fails — under any configuration,
any clock, and after any further sequence of module operations — and no
operation ever removes a revocation entry. -/
theorem c6_revocation_permanent :
    (∀ (s : AuthState) (tok : Token) (ops : List AuthOp)
      (sf : Except PyFault (Option String)) (url : Option String) (now : Int),
      verify_token_total sf url
        (applyOps (applyOp s (.blacklistTok tok.raw)) ops).blacklist tok now =
        none)
    ∧ (∀ (h : List Char) (s : AuthState) (ops : List AuthOp),
        h ∈ s.blacklist → h ∈ (applyOps s ops).blacklist) := by
  constructor
  · intro s tok ops sf url now
    apply verify_none_of_blacklisted
    apply blacklist_mem_applyOps
    exact mem_blacklist_token_self s.blacklist tok.raw
  · intro h s ops hm
    exact blacklist_mem_applyOps ops s h hm

/-- C6 witness: a concrete fingerprint present in the registry is still
present after a further module operation. -/
theorem c6_revocation_permanent_witness :
    (['a'] ∈ ([['a']] : List (List Char)))
    ∧ ['a'] ∈ (applyOps ⟨[['a']], [], [], []⟩ [.clearLoginAttempts "k"]).blacklist := by
  refine ⟨by decide, ?_⟩
  exact c6_revocation_permanent.2 ['a'] ⟨[['a']], [], [], []⟩
    [.clearLoginAttempts "k"] (by decide)

/-- C7: `verify_token` fails closed.  Its blanket exception handler maps
every internal fault of the verification body — configuration attribute
access included — to the unauthenticated result `none`, and an
authenticated result can only arise from a fault-free run of the body. -/
theorem c7_fail_closed :
    ∀ (sf : Except PyFault (Option String)) (url : Option String)
      (bl : List (List Char)) (tok : Token) (now : Int),
      (∀ f, verifyTokenBody sf url bl tok now = .error f →
        verify_token_total sf url bl tok now = none)
      ∧ (∀ p, verify_token_total sf url bl tok now = some p →
          verifyTokenBody sf url bl tok now = .ok (some p)) := by
  intro sf url bl tok now
  constructor
  · intro f hf
    simp [verify_token_total, hf]
  · intro p hp
    unfold verify_token_total at hp
    cases hb : verifyTokenBody sf url bl tok now with
    | error f =>
      rw [hb] at hp
      simp at hp
    | ok r =>
      rw [hb] at hp
      simp at hp
      rw [hp]

/-- C7 witness: the deployed configuration fetch faults with
`AttributeError`, and the result is `none`, not a propagated exception. -/
theorem c7_fail_closed_witness :
    verifyTokenBody configGetJwtSecret none []
      ⟨"t", true, "HS256", ⟨none, none, none, none, none⟩, none⟩ 0 =
      .error .attributeError
    ∧ verify_token_total configGetJwtSecret none []
      ⟨"t", true, "HS256", ⟨none, none, none, none, none⟩, none⟩ 0 = none := by
  refine ⟨rfl, ?_⟩
  exact (c7_fail_closed configGetJwtSecret none []
    ⟨"t", true, "HS256", ⟨none, none, none, none, none⟩, none⟩ 0).1
    .attributeError rfl

/-- A payload accepted by the signature-verifying decode is the token's own
payload and carries an expiry strictly in the future. -/
theorem jwtDecodeStrict_ok_exp (tok : Token) (key : String) (now : Int)
    (p : Payload) (h : jwtDecodeStrict tok key now = .ok p) :
    p = tok.payload ∧ ∃ e, tok.payload.exp = some e ∧ now < e := by
  unfold jwtDecodeStrict at h
  split_ifs at h with h1 h2 h3 h4 h5 h6
  injection h with hpl
  refine ⟨hpl.symm, ?_⟩
  cases hexp : tok.payload.exp with
  | none => simp [hexp] at h4
  | some e =>
    rw [hexp] at h6
    simp at h6
    exact ⟨e, rfl, by omega⟩

/-- A payload accepted by the shared claim checks is the argument payload,
and its expiry claim (default `0`) is not strictly below `now`. -/
theorem claimsTail_ok_some (url : Option String) (payload : Payload)
    (now : Int) (q : Payload) (h : claimsTail url payload now = .ok (some q)) :
    q = payload ∧ ¬payload.exp.getD 0 < now := by
  unfold claimsTail at h
  dsimp only at h
  split at h
  · cases h
  · split at h
    · cases h
    · split_ifs at h with h1 h2 h3
      · simp at h
      · simp at h
      · simp at h
      · injection h with hq
        injection hq with hq2
        exact ⟨hq2.symm, h2⟩

/-- With an expiry claim (default `0`) strictly below `now`, the
verification body never produces an authenticated payload, in any
configuration. -/
theorem verifyTokenBody_ne_ok_some_of_expired
    (sf : Except PyFault (Option String)) (url : Option String)
    (bl : List (List Char)) (tok : Token) (now : Int)
    (hexp : tok.payload.exp.getD 0 < now) :
    ∀ q, verifyTokenBody sf url bl tok now ≠ .ok (some q) := by
  intro q hq
  unfold verifyTokenBody at hq
  split at hq
  · cases hq
  · split at hq
    · cases hq
    · split at hq
      · next key =>
        split at hq
        · cases hq
        · next payload hdec =>
          obtain ⟨rfl, e, he, hlt⟩ := jwtDecodeStrict_ok_exp tok key now payload hdec
          rw [he] at hexp
          simp at hexp
          omega
      · split at hq
        · cases hq
        · next alg hhdr =>
          split_ifs at hq with h1 h2
          · exact Option.noConfusion (Except.ok.inj hq)
          · split at hq
            · cases hq
            · next payload hdec =>
              have hpl : payload = tok.payload := by
                unfold jwtDecodeUnverified at hdec
                split at hdec
                · injection hdec with hh
                  exact hh.symm
                · cases hdec
              obtain ⟨-, hnl⟩ := claimsTail_ok_some url payload now q hq
              rw [hpl] at hnl
              exact hnl hexp
          · exact Option.noConfusion (Except.ok.inj hq)

/-- C8 counterexample: a credential whose expiry equals the current time
(`expiry ≤ now` holds) is accepted by the fallback (no configured secret)
path: the only expiry check there is the strict `exp < time.time()` of
auth.py line 116, which passes when `exp = now`, so verification succeeds
even though the claim demands failure for every `expiry ≤ now`. -/
theorem c8_exp_equal_now_accepted :
    ((some 100 : Option Int).getD 0 ≤ 100)
    ∧ verifyTokenGiven none (some "https://proj.supabase.co") []
        ⟨"rawE", true, "HS256",
         ⟨some "https://proj.supabase.co/auth/v1", some "user-1", some 100,
          none, none⟩, none⟩ 100 =
        some ⟨some "https://proj.supabase.co/auth/v1", some "user-1",
          some 100, none, none⟩ := by
  constructor
  · decide
  · decide

/-- C8 amended: for every credential whose expiry claim (default `0`) is
strictly below the verification time, verification fails in every
configuration; at `expiry = now` exactly, the fallback path accepts, so
validity there requires only `expiry ≥ now` rather than strict futurity. -/
theorem c8_expiry_amended :
    ∀ (sf : Except PyFault (Option String)) (url : Option String)
      (bl : List (List Char)) (tok : Token) (now : Int),
      tok.payload.exp.getD 0 < now →
      verify_token_total sf url bl tok now = none := by
  intro sf url bl tok now hexp
  unfold verify_token_total
  cases hb : verifyTokenBody sf url bl tok now with
  | error f => rfl
  | ok r =>
    cases r with
    | none => rfl
    | some q =>
      exact absurd hb (verifyTokenBody_ne_ok_some_of_expired sf url bl tok now hexp q)

/-- C8 witness: a credential with expiry `0` verified at time `5` is
rejected (here in the no-secret configuration with otherwise valid
claims). -/
theorem c8_expiry_amended_witness :
    ((⟨"r", true, "HS256", ⟨some "x", some "u", some 0, none, none⟩,
      none⟩ : Token).payload.exp.getD 0 < 5)
    ∧ verify_token_total (.ok none) (some "x") []
        ⟨"r", true, "HS256", ⟨some "x", some "u", some 0, none, none⟩, none⟩ 5 =
        none := by
  refine ⟨by decide, ?_⟩
  exact c8_expiry_amended (.ok none) (some "x") []
    ⟨"r", true, "HS256", ⟨some "x", some "u", some 0, none, none⟩, none⟩ 5
    (by decide)

/-- Taking `2 * n` hex characters of a digest is exactly hex-encoding its
first `n` bytes. -/
theorem bytesToHexChars_take (bs : List Nat) (n : Nat) :
    (bytesToHexChars bs).take (2 * n) = bytesToHexChars (bs.take n) := by
  induction bs generalizing n with
  | nil => simp [bytesToHexChars]
  | cons b t ih =>
    cases n with
    | zero => simp [bytesToHexChars]
    | succ k =>
      have h2 : 2 * (k + 1) = 2 * k + 1 + 1 := by ring
      simp only [h2, bytesToHexChars, List.flatMap_cons, List.cons_append,
        List.nil_append, List.take_succ_cons, List.take_cons]
      have := ih k
      simp only [bytesToHexChars] at this
      rw [this]

/-- Two hex characters determine their byte: hex encoding is injective on
byte lists. -/
theorem bytesToHexChars_inj (bs : List Nat) :
    ∀ cs : List Nat, (∀ b ∈ bs, b < 256) → (∀ c ∈ cs, c < 256) →
      bytesToHexChars bs = bytesToHexChars cs → bs = cs := by
  have hdig : ∀ x < 16, ∀ y < 16, hexDigit x = hexDigit y → x = y := by decide
  induction bs with
  | nil =>
    intro cs _ _ h
    cases cs with
    | nil => rfl
    | cons c u => simp [bytesToHexChars] at h
  | cons b t ih =>
    intro cs hbs hcs h
    cases cs with
    | nil => simp [bytesToHexChars] at h
    | cons c u =>
      simp only [bytesToHexChars, List.flatMap_cons, List.cons_append,
        List.nil_append] at h
      injection h with ha hrest
      injection hrest with hb h3
      have hb256 := hbs b (List.mem_cons_self _ _)
      have hc256 := hcs c (List.mem_cons_self _ _)
      have e1 : b / 16 = c / 16 := hdig _ (by omega) _ (by omega) ha
      have e2 : b % 16 = c % 16 := hdig _ (by omega) _ (by omega) hb
      have hbc : b = c := by omega
      subst hbc
      have ht : t = u := by
        refine ih u (fun x hx => hbs x (List.mem_cons_of_mem _ hx))
          (fun x hx => hcs x (List.mem_cons_of_mem _ hx)) ?_
        exact h3
      rw [ht]

/-- C9: the revocation fingerprint is the deterministic (pure-function)
truncation of the SHA-256 hex digest to its first 32 hex characters, which
encode exactly the first 16 digest bytes — 128 bits — injectively, so the
fingerprint retains 128 bits of the underlying hash. -/
theorem c9_fingerprint_truncation :
    (∀ t : String, get_token_hash t = bytesToHexChars ((sha256Bytes t).take 16))
    ∧ (∀ bs cs : List Nat, (∀ b ∈ bs, b < 256) → (∀ c ∈ cs, c < 256) →
        bytesToHexChars bs = bytesToHexChars cs → bs = cs) := by
  constructor
  · intro t
    unfold get_token_hash
    have h := bytesToHexChars_take (sha256Bytes t) 16
    norm_num at h
    exact h
  · exact fun bs cs h1 h2 h3 => bytesToHexChars_inj bs cs h1 h2 h3

/-- C9 witness: the characterization evaluated on the empty token string,
and injectivity applied to a concrete byte list. -/
theorem c9_fingerprint_truncation_witness :
    (get_token_hash "" = bytesToHexChars ((sha256Bytes "").take 16))
    ∧ (∀ b ∈ ([0, 255] : List Nat), b < 256)
    ∧ ([0, 255] : List Nat) = [0, 255] := by
  refine ⟨c9_fingerprint_truncation.1 "", by decide, ?_⟩
  exact c9_fingerprint_truncation.2 [0, 255] [0, 255] (by decide) (by decide) rfl
